import Mathlib

/-!
Verification of the Galactic Archives staff portal backend
(`src/main.py`, `src/database.py`, `src/config.py`).

The store (PostgreSQL tables `users`, `tickets`, `kb_articles`,
`ticket_messages`) is embedded as Lean lists of records; a connection is
a store plus an optional pending exception (models the store layer
raising on any query).  Handlers return an `Outcome`: a success value,
an `HTTPException` (status, detail), or a raw uncaught exception.

The token codec and password-hashing primitives live in `security.py`,
which is not part of this repository snapshot (only `main.py` imports
it); those are modelled from the specification, as marked in their doc
comments.  Everything else is translated directly from the source.
-/

/-- Configuration constants from `src/config.py` (`Settings`). -/
def ACCESS_TOKEN_EXPIRE_MINUTES : Nat := 30

/-- Configuration constant from `src/config.py` (`Settings`). -/
def REFRESH_TOKEN_EXPIRE_DAYS : Nat := 7

/-- Row of the `users` table (`src/database.py`, `CREATE TABLE users`). -/
structure UserRec where
  id : Nat
  email : String
  username : String
  hashed_password : String
  is_staff : Bool
deriving Repr, DecidableEq

/-- Row of the `tickets` table (`src/database.py`, `CREATE TABLE tickets`). -/
structure Ticket where
  id : Nat
  user_id : Nat
  title : String
  description : String
  status : String
  priority : String
  created_at : Nat
  updated_at : Nat
deriving Repr, DecidableEq

/-- Row of the `kb_articles` table (`src/database.py`). -/
structure Article where
  id : Nat
  title : String
  content : String
  category : String
  is_published : Bool
  created_at : Nat
  updated_at : Nat
deriving Repr, DecidableEq

/-- Row of the `ticket_messages` table (`src/database.py`). -/
structure TicketMessage where
  id : Nat
  ticket_id : Nat
  user_id : Nat
  message : String
  created_at : Nat
deriving Repr, DecidableEq

/-- The relational store: the four tables, plus the SERIAL counter for
`kb_articles.id` (the only table this development inserts into with a
generated key). -/
structure Store where
  users : List UserRec
  tickets : List Ticket
  kb_articles : List Article
  ticket_messages : List TicketMessage
  kb_serial : Nat
deriving Repr, DecidableEq

/-- A borrowed pool connection: the store it reads and writes, plus an
optional pending store-layer exception.  When `fail = some msg`, every
query on this connection raises `msg` (models `asyncpg` errors such as a
lost connection). -/
structure Conn where
  store : Store
  fail : Option String
deriving Repr, DecidableEq

/-- `HTTPException(status_code, detail)` as raised throughout `main.py`. -/
structure HttpError where
  status_code : Nat
  detail : String
deriving Repr, DecidableEq

/-- Result of running a handler (or the auth-gate dependency):
success, an `HTTPException` translated by the framework into an HTTP
response, or a raw exception that escaped every `try/except` and
propagates to the transport layer. -/
inductive Outcome (α : Type) where
  | ok (a : α)
  | http (e : HttpError)
  | exn (msg : String)
deriving Repr, DecidableEq

/-- The claim mapping put into tokens by `main.py`
(`token_data = {"sub": ..., "user_id": ..., "is_staff": ...}`). -/
structure Claims where
  sub : String
  user_id : Nat
  is_staff : Bool
deriving Repr, DecidableEq

/-- Decoded token payload: the claims plus the `type` kind claim, the
expiry timestamp and the issuance timestamp (spec §4.1). -/
structure TokenPayload where
  claims : Claims
  type : String
  exp : Nat
  iat : Nat
deriving Repr, DecidableEq

/-- A signed token.  `mac` models the HMAC over the payload: an ideal
MAC is injective in (secret, payload), so it is embedded as the pair
itself.  A token verifies exactly when its carried `mac` matches the
verifier's secret paired with the carried payload; a tampered token is
one whose payload no longer matches its `mac`. -/
structure Token where
  payload : TokenPayload
  mac : String × TokenPayload
deriving Repr, DecidableEq

/-- What a caller can present as the token part of a bearer header:
either a string that does not parse as a signed token at all
(malformed payload), or a structurally well-formed signed token. -/
inductive TokenInput where
  | malformed (s : String)
  | tok (t : Token)
deriving Repr, DecidableEq

/-- Modelled from the spec: `issue(claims, kind, ttl)` of the token
codec (`security.py`, absent from this snapshot; spec §4.1): encodes
the claims, the kind as the `type` claim, expiry `now + ttl` and
issuance timestamp, signed with the shared secret. -/
def issue (secret : String) (claims : Claims) (kind : String) (ttl : Nat)
    (now : Nat) : Token :=
  { payload := ⟨claims, kind, now + ttl, now⟩
    mac := (secret, ⟨claims, kind, now + ttl, now⟩) }

/-- Modelled from the spec: `create_access_token` from `security.py`
(absent from this snapshot): an `access`-kind token with the short
lifetime from `config.py`. -/
def create_access_token (secret : String) (now : Nat) (claims : Claims) : Token :=
  issue secret claims "access" (ACCESS_TOKEN_EXPIRE_MINUTES * 60) now

/-- Modelled from the spec: `create_refresh_token` from `security.py`
(absent from this snapshot): a `refresh`-kind token with the long
lifetime from `config.py`. -/
def create_refresh_token (secret : String) (now : Nat) (claims : Claims) : Token :=
  issue secret claims "refresh" (REFRESH_TOKEN_EXPIRE_DAYS * 24 * 60 * 60) now

/-- Modelled from the spec: `decode_token` / `verify` from
`security.py` (absent from this snapshot; spec §4.1): returns the claim
mapping on success and an empty result — never an exception — when the
payload is malformed, the signature does not verify, or the expiry
timestamp is in the past. -/
def decode_token (secret : String) (now : Nat) : TokenInput → Option TokenPayload
  | .malformed _ => none
  | .tok t =>
    if t.mac = (secret, t.payload) ∧ now < t.payload.exp then
      some t.payload
    else
      none

/-- Modelled from the spec: `hash_password` from `security.py` (absent
from this snapshot; password hashing is an external primitive per spec
§1).  An ideal hash is injective, so it is embedded as a tagged copy of
the password. -/
def hash_password (password : String) : String :=
  "bcrypt$" ++ password

/-- Modelled from the spec: `verify_password` from `security.py`
(absent from this snapshot): checks the supplied plaintext against the
stored hash. -/
def verify_password (plain : String) (hashed : String) : Bool :=
  hash_password plain == hashed

/-- `SELECT id, is_staff FROM users WHERE id = $1` (and the wider
`SELECT ... WHERE id = ...` shape): first user row with the given id. -/
def fetchUserById (users : List UserRec) (uid : Nat) : Option UserRec :=
  users.find? (fun u => u.id == uid)

/-- `SELECT ... FROM users WHERE email = $1`: `email` is UNIQUE, the
query returns the first (only) row with that email. -/
def fetchUserByEmail (users : List UserRec) (email : String) : Option UserRec :=
  users.find? (fun u => u.email == email)

/-- The `Authorization` value seen by `get_current_staff`: absent (or
empty, which Python treats the same via `not authorization`), or a
scheme word followed by a token part (`"<scheme> <token>"`;
`startswith("Bearer ")` succeeds exactly when the scheme word is
`Bearer`, and `split(" ")[1]` then yields the token part). -/
inductive Authorization where
  | missing
  | header (scheme : String) (token : TokenInput)
deriving Repr, DecidableEq

/-- `get_current_staff` (`src/main.py` lines 56–97): the auth-gate
dependency.  Checks bearer presence/format, decodes the token,
requires the `access` kind, then re-reads the user row from the store;
rejects 401 when the header or token is bad or the user row is gone,
403 when the user exists but `is_staff` is false.  The store lookup is
not wrapped in any `try/except`, so a store-layer exception there
escapes as a raw exception. -/
def get_current_staff (secret : String) (now : Nat)
    (authorization : Authorization) (conn : Conn) : Outcome TokenPayload :=
  match authorization with
  | .missing => .http ⟨401, "Not authenticated"⟩
  | .header scheme tokin =>
    if scheme ≠ "Bearer" then .http ⟨401, "Not authenticated"⟩
    else
      match decode_token secret now tokin with
      | none => .http ⟨401, "Invalid token"⟩
      | some payload =>
        if payload.type ≠ "access" then .http ⟨401, "Invalid token"⟩
        else
          match conn.fail with
          | some m => .exn m
          | none =>
            match fetchUserById conn.store.users payload.claims.user_id with
            | none => .http ⟨401, "User not found"⟩
            | some user =>
              if ¬ user.is_staff then
                .http ⟨403, "Access denied. Staff access only."⟩
              else
                .ok payload

/-- Request body of `POST /api/auth/login` (`UserLogin` in `main.py`). -/
structure UserLogin where
  email : String
  password : String
deriving Repr, DecidableEq

/-- The public user summary dict built by `staff_login`
(`{"id": ..., "email": ..., "username": ..., "is_staff": True}`). -/
structure UserSummary where
  id : Nat
  email : String
  username : String
  is_staff : Bool
deriving Repr, DecidableEq

/-- `TokenResponse` in `main.py`: the body of a successful login. -/
structure TokenResponse where
  access_token : Token
  refresh_token : Token
  user : UserSummary
deriving Repr, DecidableEq

/-- `staff_login` (`src/main.py` lines 127–163): look the user up by
email; reject 401 `Invalid credentials` when the row is absent or the
password does not verify; reject 403 when `is_staff` is false;
otherwise issue an access and a refresh token over the same claim set
and return them with the public user summary.  The body is wrapped in
`try/except`: `HTTPException` is re-raised, any other exception becomes
500 `Login failed`. -/
def staff_login (secret : String) (now : Nat) (data : UserLogin)
    (conn : Conn) : Outcome TokenResponse :=
  match conn.fail with
  | some _ => .http ⟨500, "Login failed"⟩
  | none =>
    match fetchUserByEmail conn.store.users data.email with
    | none => .http ⟨401, "Invalid credentials"⟩
    | some user =>
      if ¬ verify_password data.password user.hashed_password then
        .http ⟨401, "Invalid credentials"⟩
      else if ¬ user.is_staff then
        .http ⟨403, "Access denied. This portal is for staff only."⟩
      else
        let token_data : Claims := ⟨user.email, user.id, true⟩
        { access_token := create_access_token secret now token_data
          refresh_token := create_refresh_token secret now token_data
          user := ⟨user.id, user.email, user.username, true⟩ } |> .ok

/-- Body of a successful `POST /api/auth/refresh`: only an access
token (`{"access_token": ...}` in `main.py`). -/
structure RefreshResponse where
  access_token : Token
deriving Repr, DecidableEq

/-- `refresh_token_endpoint` (`src/main.py` lines 165–173): decode the
presented token; reject 401 unless it decodes with `type = "refresh"`;
otherwise issue a fresh access token with the payload's `sub` and
`user_id` and `is_staff` set to `True` (hard-coded in the source).  The
injected pool is never used: no store query happens, so the connection
argument is ignored exactly as in the source. -/
def refresh_token_endpoint (secret : String) (now : Nat)
    (refresh_token : TokenInput) (_conn : Conn) : Outcome RefreshResponse :=
  match decode_token secret now refresh_token with
  | none => .http ⟨401, "Invalid refresh token"⟩
  | some payload =>
    if payload.type ≠ "refresh" then .http ⟨401, "Invalid refresh token"⟩
    else
      .ok ⟨create_access_token secret now ⟨payload.claims.sub, payload.claims.user_id, true⟩⟩

/-- Request body of `PUT /staff/tickets/{id}` (`TicketStatusUpdate`). -/
structure TicketStatusUpdate where
  status : String
deriving Repr, DecidableEq

/-- The `{"status": ...}` reply dict shared by the mutation handlers. -/
structure StatusReply where
  status : String
deriving Repr, DecidableEq

/-- `UPDATE tickets SET status = $1, updated_at = NOW() WHERE id = $2`:
returns the updated rows and the affected-row count.  `dbnow` stands
for the value of `NOW()` at execution. -/
def updateTicketRows (ts : List Ticket) (newStatus : String) (dbnow : Nat)
    (tid : Nat) : List Ticket × Nat :=
  match ts with
  | [] => ([], 0)
  | t :: rest =>
    let (rest', n) := updateTicketRows rest newStatus dbnow tid
    if t.id == tid then
      ({ t with status := newStatus, updated_at := dbnow } :: rest', n + 1)
    else
      (t :: rest', n)

/-- `update_ticket_status` (`src/main.py` lines 248–269), composed with
its `get_current_staff` dependency the way FastAPI runs them: the gate
first (its rejection short-circuits the handler), then the handler body
under `try/except` (`HTTPException` re-raised, other exceptions → 500).
`conn.execute` yields the command tag `"UPDATE <n>"`; the tag
`"UPDATE 0"` becomes 404 `Ticket not found`.  Returns the outcome and
the store as the request leaves it. -/
def update_ticket_status (secret : String) (now : Nat) (dbnow : Nat)
    (authorization : Authorization) (conn : Conn) (ticket_id : Nat)
    (data : TicketStatusUpdate) : Outcome StatusReply × Store :=
  match get_current_staff secret now authorization conn with
  | .http e => (.http e, conn.store)
  | .exn m => (.exn m, conn.store)
  | .ok _user =>
    match conn.fail with
    | some _ => (.http ⟨500, "Failed to update ticket"⟩, conn.store)
    | none =>
      let (tickets', n) := updateTicketRows conn.store.tickets data.status dbnow ticket_id
      let result := "UPDATE " ++ toString n
      if result == "UPDATE 0" then
        (.http ⟨404, "Ticket not found"⟩, { conn.store with tickets := tickets' })
      else
        (.ok ⟨"success"⟩, { conn.store with tickets := tickets' })

/-- Request body of `POST /staff/kb/articles` (`ArticleCreate`): only
title, category and content — the schema has no published field. -/
structure ArticleCreate where
  title : String
  category : String
  content : String
deriving Repr, DecidableEq

/-- `INSERT INTO kb_articles (title, category, content, is_published)
VALUES ($1, $2, $3, FALSE)`: the id comes from the SERIAL counter and
the timestamps from their `CURRENT_TIMESTAMP` defaults. -/
def insertArticle (s : Store) (data : ArticleCreate) (dbnow : Nat) : Store :=
  { s with
    kb_articles := s.kb_articles ++
      [⟨s.kb_serial + 1, data.title, data.content, data.category, false, dbnow, dbnow⟩]
    kb_serial := s.kb_serial + 1 }

/-- `create_article` (`src/main.py` lines 313–329), composed with its
`get_current_staff` dependency: gate first, then the insert under
`try/except Exception` → 500.  Returns the outcome and the store as the
request leaves it. -/
def create_article (secret : String) (now : Nat) (dbnow : Nat)
    (authorization : Authorization) (conn : Conn)
    (data : ArticleCreate) : Outcome StatusReply × Store :=
  match get_current_staff secret now authorization conn with
  | .http e => (.http e, conn.store)
  | .exn m => (.exn m, conn.store)
  | .ok _user =>
    match conn.fail with
    | some _ => (.http ⟨500, "Failed to create article"⟩, conn.store)
    | none =>
      (.ok ⟨"created"⟩, insertArticle conn.store data dbnow)

/-- A staff user fixture for witnesses. -/
def aliceUser : UserRec :=
  ⟨1, "alice@example.com", "alice", hash_password "wonderland", true⟩

/-- A non-staff user fixture for witnesses. -/
def bobUser : UserRec :=
  ⟨2, "bob@example.com", "bob", hash_password "builder", false⟩

/-- A ticket fixture for witnesses. -/
def demoTicket1 : Ticket :=
  ⟨1, 1, "Broken console", "Console sparks on use", "open", "medium", 0, 0⟩

/-- A concrete store for witnesses and counterexamples. -/
def demoStore : Store := ⟨[aliceUser, bobUser], [demoTicket1], [], [], 0⟩

/-- A healthy connection to the demo store. -/
def demoConn : Conn := ⟨demoStore, none⟩

/-- A connection whose store layer raises on every query. -/
def downConn : Conn := ⟨demoStore, some "connection lost"⟩

/-- The claim set the login flow builds for the staff fixture. -/
def aliceClaims : Claims := ⟨"alice@example.com", 1, true⟩

/-- An access token for the staff fixture, issued at time 0. -/
def aliceAccess : Token := create_access_token "topsecret" 0 aliceClaims

/-- Reduction of the auth gate once the bearer header is present, the
token decodes, its kind is `access` and the store responds: what
remains is exactly the store re-check of the user row. -/
theorem get_current_staff_reduce (secret : String) (now : Nat)
    (tokin : TokenInput) (conn : Conn) (payload : TokenPayload)
    (hdec : decode_token secret now tokin = some payload)
    (hty : payload.type = "access")
    (hfail : conn.fail = none) :
    get_current_staff secret now (.header "Bearer" tokin) conn =
      match fetchUserById conn.store.users payload.claims.user_id with
      | none => .http ⟨401, "User not found"⟩
      | some user =>
        if ¬ user.is_staff then .http ⟨403, "Access denied. Staff access only."⟩
        else .ok payload := by
  unfold get_current_staff
  simp [hdec, hty, hfail]

/-- Claim C1: with a syntactically valid bearer access token, the gate
re-reads the user row from the store; a missing row yields 401
`User not found`, and a present row with `is_staff = false` yields 403
`Access denied. Staff access only.` — for every payload, hence
regardless of the staff-assertion claim carried inside the token. -/
theorem C1_gate_rechecks_store (secret : String) (now : Nat)
    (tokin : TokenInput) (conn : Conn) (payload : TokenPayload)
    (hdec : decode_token secret now tokin = some payload)
    (hty : payload.type = "access")
    (hfail : conn.fail = none) :
    (fetchUserById conn.store.users payload.claims.user_id = none →
      get_current_staff secret now (.header "Bearer" tokin) conn =
        .http ⟨401, "User not found"⟩)
    ∧ (∀ u, fetchUserById conn.store.users payload.claims.user_id = some u →
        u.is_staff = false →
        get_current_staff secret now (.header "Bearer" tokin) conn =
          .http ⟨403, "Access denied. Staff access only."⟩) := by
  rw [get_current_staff_reduce secret now tokin conn payload hdec hty hfail]
  constructor
  · intro hnone
    rw [hnone]
  · intro u hu hstaff
    rw [hu]
    simp [hstaff]

/-- The 403 branch of C1 at a concrete input: the store says `bob` is
not staff even though the token asserts staff. -/
theorem C1_gate_rechecks_store_witness :
    get_current_staff "topsecret" 0
      (.header "Bearer" (.tok (create_access_token "topsecret" 0 ⟨"bob@example.com", 2, true⟩)))
      demoConn = .http ⟨403, "Access denied. Staff access only."⟩ :=
  (C1_gate_rechecks_store "topsecret" 0
      (.tok (create_access_token "topsecret" 0 ⟨"bob@example.com", 2, true⟩)) demoConn
      (create_access_token "topsecret" 0 ⟨"bob@example.com", 2, true⟩).payload
      (by decide) (by decide) (by decide)).2 bobUser (by decide) (by decide)

/-- Claim C3: any token that decodes to a payload whose `type` claim is
not `access` — in particular a well-formed, unexpired refresh token —
is rejected by the auth gate with 401 `Invalid token`. -/
theorem C3_refresh_never_authorizes (secret : String) (now : Nat)
    (tokin : TokenInput) (conn : Conn) (payload : TokenPayload)
    (hdec : decode_token secret now tokin = some payload)
    (hty : payload.type ≠ "access") :
    get_current_staff secret now (.header "Bearer" tokin) conn =
      .http ⟨401, "Invalid token"⟩ := by
  unfold get_current_staff
  simp [hdec, hty]

/-- C3 at a concrete input: a fresh, unexpired refresh token for a
staff user is still rejected by the gate. -/
theorem C3_refresh_never_authorizes_witness :
    get_current_staff "topsecret" 0
      (.header "Bearer" (.tok (create_refresh_token "topsecret" 0 aliceClaims)))
      demoConn = .http ⟨401, "Invalid token"⟩ :=
  C3_refresh_never_authorizes "topsecret" 0
    (.tok (create_refresh_token "topsecret" 0 aliceClaims)) demoConn
    (create_refresh_token "topsecret" 0 aliceClaims).payload
    (by decide) (by decide)

/-- Claim C4: the codec round trip.  Verifying `issue(claims, "access",
ttl)` before the expiry instant returns the same claims with
`type = "access"`; at or after expiry it returns `none`; a malformed
payload returns `none`; a tampered token (carried MAC not matching the
verifier's secret over the carried payload) returns `none`.
`decode_token` is a total function into `Option`, so failure is always
an empty result and never an exception. -/
theorem C4_issue_verify_roundtrip (secret : String) (claims : Claims)
    (ttl now now' : Nat) :
    (now' < now + ttl →
      decode_token secret now' (.tok (issue secret claims "access" ttl now)) =
        some ⟨claims, "access", now + ttl, now⟩)
    ∧ (now + ttl ≤ now' →
      decode_token secret now' (.tok (issue secret claims "access" ttl now)) = none)
    ∧ (∀ s, decode_token secret now' (.malformed s) = none)
    ∧ (∀ t : Token, t.mac ≠ (secret, t.payload) →
      decode_token secret now' (.tok t) = none) := by
  refine ⟨?_, ?_, fun s => rfl, ?_⟩
  · intro h
    simp [decode_token, issue, h]
  · intro h
    have hlt : ¬ now' < now + ttl := by omega
    simp [decode_token, issue, hlt]
  · intro t h
    simp [decode_token, h]

/-- The before-expiry branch of C4 at a concrete input. -/
theorem C4_issue_verify_roundtrip_witness :
    decode_token "topsecret" 100
      (.tok (issue "topsecret" aliceClaims "access" 1800 0)) =
      some ⟨aliceClaims, "access", 0 + 1800, 0⟩ :=
  (C4_issue_verify_roundtrip "topsecret" aliceClaims 1800 0 100).1 (by decide)

/-- Claim C2 fails as stated: a request with no `Authorization` value
and a request with an expired token both yield 401, but their response
content differs (`Not authenticated` vs `Invalid token`), so the four
rejection modes are not indistinguishable in both status and content. -/
theorem C2_indistinguishable_counterexample :
    get_current_staff "topsecret" 2000 .missing demoConn ≠
      get_current_staff "topsecret" 2000
        (.header "Bearer" (.tok (issue "topsecret" aliceClaims "access" 10 0)))
        demoConn := by
  decide

/-- Claim C2 amended: all four failure modes — missing header,
non-bearer scheme, tampered token, expired token — are rejected with
the same 401 status, but only the status is uniform: the first two
carry detail `Not authenticated` while the last two carry detail
`Invalid token`, so the response content distinguishes header-format
failures from token-verification failures. -/
theorem C2_uniform_status_amended (secret : String) (now : Nat) (conn : Conn) :
    (get_current_staff secret now .missing conn =
      .http ⟨401, "Not authenticated"⟩)
    ∧ (∀ scheme tokin, scheme ≠ "Bearer" →
        get_current_staff secret now (.header scheme tokin) conn =
          .http ⟨401, "Not authenticated"⟩)
    ∧ (∀ t : Token, t.mac ≠ (secret, t.payload) →
        get_current_staff secret now (.header "Bearer" (.tok t)) conn =
          .http ⟨401, "Invalid token"⟩)
    ∧ (∀ t : Token, t.payload.exp ≤ now →
        get_current_staff secret now (.header "Bearer" (.tok t)) conn =
          .http ⟨401, "Invalid token"⟩) := by
  refine ⟨rfl, ?_, ?_, ?_⟩
  · intro scheme tokin h
    unfold get_current_staff
    simp [h]
  · intro t h
    unfold get_current_staff
    simp [decode_token, h]
  · intro t h
    have hlt : ¬ now < t.payload.exp := by omega
    unfold get_current_staff
    simp [decode_token, hlt]

/-- The expired-token branch of the amended C2 at a concrete input. -/
theorem C2_uniform_status_amended_witness :
    get_current_staff "topsecret" 2000
      (.header "Bearer" (.tok (issue "topsecret" aliceClaims "access" 10 0)))
      demoConn = .http ⟨401, "Invalid token"⟩ :=
  (C2_uniform_status_amended "topsecret" 2000 demoConn).2.2.2
    (issue "topsecret" aliceClaims "access" 10 0) (by decide)

/-- Claim C5 fails as stated: the two credential failures do share the
401 status and the message `Invalid credentials`, but the non-staff
outcome's message `Access denied. This portal is for staff only.`
differs from theirs, so the three outcomes are not all
indistinguishable in message content. -/
theorem C5_login_messages_counterexample :
    staff_login "topsecret" 0 ⟨"alice@example.com", "wrong"⟩ demoConn =
      .http ⟨401, "Invalid credentials"⟩
    ∧ staff_login "topsecret" 0 ⟨"carol@example.com", "whatever"⟩ demoConn =
      .http ⟨401, "Invalid credentials"⟩
    ∧ staff_login "topsecret" 0 ⟨"bob@example.com", "builder"⟩ demoConn =
      .http ⟨403, "Access denied. This portal is for staff only."⟩
    ∧ "Invalid credentials" ≠ "Access denied. This portal is for staff only." := by
  refine ⟨by decide, by decide, by decide, by decide⟩

/-- Claim C5 amended: unknown email and wrong password fail with the
identical outcome 401 `Invalid credentials` (revealing neither which
check failed); correct credentials for a non-staff user fail with 403
`Access denied. This portal is for staff only.` — distinguishable from
the first two by status and also by message content. -/
theorem C5_login_outcomes_amended (secret : String) (now : Nat)
    (data : UserLogin) (conn : Conn) (hfail : conn.fail = none) :
    (fetchUserByEmail conn.store.users data.email = none →
      staff_login secret now data conn = .http ⟨401, "Invalid credentials"⟩)
    ∧ (∀ u, fetchUserByEmail conn.store.users data.email = some u →
        verify_password data.password u.hashed_password = false →
        staff_login secret now data conn = .http ⟨401, "Invalid credentials"⟩)
    ∧ (∀ u, fetchUserByEmail conn.store.users data.email = some u →
        verify_password data.password u.hashed_password = true →
        u.is_staff = false →
        staff_login secret now data conn =
          .http ⟨403, "Access denied. This portal is for staff only."⟩) := by
  refine ⟨?_, ?_, ?_⟩
  · intro hnone
    unfold staff_login
    rw [hfail, hnone]
  · intro u hu hpw
    unfold staff_login
    rw [hfail, hu]
    simp [hpw]
  · intro u hu hpw hstaff
    unfold staff_login
    rw [hfail, hu]
    simp [hpw, hstaff]

/-- The wrong-password branch of the amended C5 at a concrete input. -/
theorem C5_login_outcomes_amended_witness :
    staff_login "topsecret" 0 ⟨"alice@example.com", "wrong"⟩ demoConn =
      .http ⟨401, "Invalid credentials"⟩ :=
  (C5_login_outcomes_amended "topsecret" 0 ⟨"alice@example.com", "wrong"⟩
      demoConn (by decide)).2.1 aliceUser (by decide) (by decide)

/-- Claim C6 fails as stated: for a decodable refresh token whose
staff-assertion claim is `false`, the endpoint succeeds but the minted
access token carries `is_staff = true` (hard-coded in the source), not
the same staff-assertion claim as the presented token. -/
theorem C6_refresh_claims_counterexample :
    (refresh_token_endpoint "topsecret" 1
        (.tok (issue "topsecret" ⟨"bob@example.com", 2, false⟩ "refresh" 100 0))
        demoConn =
      .ok ⟨create_access_token "topsecret" 1 ⟨"bob@example.com", 2, true⟩⟩)
    ∧ (create_access_token "topsecret" 1
        ⟨"bob@example.com", 2, true⟩).payload.claims.is_staff ≠
      (issue "topsecret" ⟨"bob@example.com", 2, false⟩ "refresh" 100 0).payload.claims.is_staff := by
  refine ⟨by decide, by decide⟩

/-- Claim C6 amended: for every token that decodes with
`type = "refresh"`, the endpoint returns only a fresh access token; it
copies the subject and user id from the presented payload but sets the
staff-assertion claim to `true` unconditionally (coinciding with the
presented claim whenever that claim is true, as it is for every refresh
token the login flow issues), and the result is identical for every
connection — no store lookup takes place. -/
theorem C6_refresh_no_store_recheck_amended (secret : String) (now : Nat)
    (tokin : TokenInput) (payload : TokenPayload) (conn conn' : Conn)
    (hdec : decode_token secret now tokin = some payload)
    (hty : payload.type = "refresh") :
    refresh_token_endpoint secret now tokin conn =
      .ok ⟨create_access_token secret now
        ⟨payload.claims.sub, payload.claims.user_id, true⟩⟩
    ∧ refresh_token_endpoint secret now tokin conn =
      refresh_token_endpoint secret now tokin conn' := by
  unfold refresh_token_endpoint
  rw [hdec]
  simp [hty]

/-- The amended C6 at a concrete input: the same refresh token gives
the same answer on a healthy and on a failing connection. -/
theorem C6_refresh_no_store_recheck_amended_witness :
    refresh_token_endpoint "topsecret" 0
      (.tok (create_refresh_token "topsecret" 0 aliceClaims)) demoConn =
      .ok ⟨create_access_token "topsecret" 0 ⟨"alice@example.com", 1, true⟩⟩
    ∧ refresh_token_endpoint "topsecret" 0
      (.tok (create_refresh_token "topsecret" 0 aliceClaims)) demoConn =
      refresh_token_endpoint "topsecret" 0
        (.tok (create_refresh_token "topsecret" 0 aliceClaims)) downConn :=
  C6_refresh_no_store_recheck_amended "topsecret" 0
    (.tok (create_refresh_token "topsecret" 0 aliceClaims))
    (create_refresh_token "topsecret" 0 aliceClaims).payload demoConn downConn
    (by decide) (by decide)

/-- Every `String` component reachable in a `TokenResponse`: the user
summary's email and username, and for each of the two tokens the
subject claim, the `type` claim, and both MAC components. -/
def responseStrings (r : TokenResponse) : List String :=
  [r.user.email, r.user.username,
   r.access_token.payload.claims.sub, r.access_token.payload.type,
   r.access_token.mac.1, r.access_token.mac.2.claims.sub,
   r.access_token.mac.2.type,
   r.refresh_token.payload.claims.sub, r.refresh_token.payload.type,
   r.refresh_token.mac.1, r.refresh_token.mac.2.claims.sub,
   r.refresh_token.mac.2.type]

/-- Claim C7: a successful login returns exactly one access token and
one refresh token over the same claim set, plus the public user summary
(id, email, username, staff flag); provided the stored hash does not
literally coincide with the email, username, secret or a kind label (a
bcrypt hash never does), it appears nowhere in the response. -/
theorem C7_login_response_shape (secret : String) (now : Nat)
    (data : UserLogin) (conn : Conn) (u : UserRec)
    (hfail : conn.fail = none)
    (hu : fetchUserByEmail conn.store.users data.email = some u)
    (hpw : verify_password data.password u.hashed_password = true)
    (hstaff : u.is_staff = true)
    (hne : u.hashed_password ≠ u.email ∧ u.hashed_password ≠ u.username ∧
      u.hashed_password ≠ secret ∧ u.hashed_password ≠ "access" ∧
      u.hashed_password ≠ "refresh") :
    staff_login secret now data conn =
      .ok ⟨create_access_token secret now ⟨u.email, u.id, true⟩,
           create_refresh_token secret now ⟨u.email, u.id, true⟩,
           ⟨u.id, u.email, u.username, true⟩⟩
    ∧ (create_access_token secret now ⟨u.email, u.id, true⟩).payload.claims =
      (create_refresh_token secret now ⟨u.email, u.id, true⟩).payload.claims
    ∧ (create_access_token secret now ⟨u.email, u.id, true⟩).payload.type = "access"
    ∧ (create_refresh_token secret now ⟨u.email, u.id, true⟩).payload.type = "refresh"
    ∧ u.hashed_password ∉ responseStrings
        ⟨create_access_token secret now ⟨u.email, u.id, true⟩,
         create_refresh_token secret now ⟨u.email, u.id, true⟩,
         ⟨u.id, u.email, u.username, true⟩⟩ := by
  obtain ⟨h1, h2, h3, h4, h5⟩ := hne
  refine ⟨?_, rfl, rfl, rfl, ?_⟩
  · unfold staff_login
    rw [hfail, hu]
    simp [hpw, hstaff]
  · simp [responseStrings, create_access_token, create_refresh_token, issue,
      h1, h2, h3, h4, h5]

/-- C7 at a concrete input: the staff fixture logs in successfully and
the stored hash occurs nowhere in the response. -/
theorem C7_login_response_shape_witness :
    staff_login "topsecret" 0 ⟨"alice@example.com", "wonderland"⟩ demoConn =
      .ok ⟨create_access_token "topsecret" 0 ⟨"alice@example.com", 1, true⟩,
           create_refresh_token "topsecret" 0 ⟨"alice@example.com", 1, true⟩,
           ⟨1, "alice@example.com", "alice", true⟩⟩
    ∧ aliceUser.hashed_password ∉ responseStrings
        ⟨create_access_token "topsecret" 0 ⟨"alice@example.com", 1, true⟩,
         create_refresh_token "topsecret" 0 ⟨"alice@example.com", 1, true⟩,
         ⟨1, "alice@example.com", "alice", true⟩⟩ := by
  have h := C7_login_response_shape "topsecret" 0
    ⟨"alice@example.com", "wonderland"⟩ demoConn aliceUser
    (by decide) (by decide) (by decide) (by decide)
    ⟨by decide, by decide, by decide, by decide, by decide⟩
  exact ⟨h.1, h.2.2.2.2⟩

/-- An `UPDATE ... WHERE id = $2` that matches no row leaves the table
unchanged and reports zero affected rows. -/
theorem updateTicketRows_no_match (ts : List Ticket) (s : String)
    (dbnow tid : Nat) (h : ∀ t ∈ ts, t.id ≠ tid) :
    updateTicketRows ts s dbnow tid = (ts, 0) := by
  induction ts with
  | nil => rfl
  | cons t rest ih =>
    have ht : t.id ≠ tid := h t (List.mem_cons_self t rest)
    have hrest := ih (fun x hx => h x (List.mem_cons_of_mem t hx))
    simp [updateTicketRows, hrest, ht]

/-- Claim C8: a ticket-status update naming an id with no ticket row
returns 404 `Ticket not found` and leaves the store exactly as it was:
the zero-row `UPDATE` writes nothing. -/
theorem C8_update_missing_ticket_404 (secret : String) (now dbnow : Nat)
    (auth : Authorization) (conn : Conn) (ticket_id : Nat)
    (data : TicketStatusUpdate) (payload : TokenPayload)
    (hgate : get_current_staff secret now auth conn = .ok payload)
    (hfail : conn.fail = none)
    (hno : ∀ t ∈ conn.store.tickets, t.id ≠ ticket_id) :
    update_ticket_status secret now dbnow auth conn ticket_id data =
      (.http ⟨404, "Ticket not found"⟩, conn.store) := by
  unfold update_ticket_status
  rw [hgate, hfail, updateTicketRows_no_match conn.store.tickets data.status dbnow ticket_id hno]
  rfl

/-- C8 at a concrete input: ticket 99 does not exist, the update
returns 404 and the demo store is returned untouched. -/
theorem C8_update_missing_ticket_404_witness :
    update_ticket_status "topsecret" 0 5
      (.header "Bearer" (.tok aliceAccess)) demoConn 99 ⟨"closed"⟩ =
      (.http ⟨404, "Ticket not found"⟩, demoConn.store) :=
  C8_update_missing_ticket_404 "topsecret" 0 5
    (.header "Bearer" (.tok aliceAccess)) demoConn 99 ⟨"closed"⟩
    aliceAccess.payload (by decide) (by decide) (by decide)

/-- Claim C9 fails as stated: the auth gate's store lookup sits in no
`try/except`, so with a valid access token and a failing store the
ticket-update endpoint lets the raw store exception through — an
outcome that is no `HTTPException` at all, in particular not the
generic 500. -/
theorem C9_gate_exception_counterexample :
    (update_ticket_status "topsecret" 0 0
        (.header "Bearer" (.tok aliceAccess)) downConn 1 ⟨"closed"⟩).1 =
      .exn "connection lost"
    ∧ ∀ e : HttpError,
        (update_ticket_status "topsecret" 0 0
          (.header "Bearer" (.tok aliceAccess)) downConn 1 ⟨"closed"⟩).1 ≠
        .http e := by
  have hx : (update_ticket_status "topsecret" 0 0
      (.header "Bearer" (.tok aliceAccess)) downConn 1 ⟨"closed"⟩).1 =
      .exn "connection lost" := by decide
  refine ⟨hx, ?_⟩
  intro e h
  rw [hx] at h
  exact Outcome.noConfusion h

/-- Claim C9 amended: store exceptions raised inside a handler's own
body are caught and translated (the login handler turns them into 500
`Login failed`), but the auth gate's store lookup is unguarded: when a
valid bearer access token reaches it on a failing connection, the raw
exception propagates untranslated through the endpoint. -/
theorem C9_exception_translation_amended :
    (∀ (secret : String) (now : Nat) (data : UserLogin) (conn : Conn) (m : String),
      conn.fail = some m →
      staff_login secret now data conn = .http ⟨500, "Login failed"⟩)
    ∧ (∀ (secret : String) (now dbnow : Nat) (tokin : TokenInput) (conn : Conn)
        (m : String) (tid : Nat) (d : TicketStatusUpdate) (payload : TokenPayload),
      conn.fail = some m →
      decode_token secret now tokin = some payload →
      payload.type = "access" →
      (update_ticket_status secret now dbnow (.header "Bearer" tokin) conn tid d).1 =
        .exn m) := by
  constructor
  · intro secret now data conn m hm
    unfold staff_login
    rw [hm]
  · intro secret now dbnow tokin conn m tid d payload hm hdec hty
    have hgate : get_current_staff secret now (.header "Bearer" tokin) conn = .exn m := by
      unfold get_current_staff
      simp [hdec, hty, hm]
    unfold update_ticket_status
    rw [hgate]

/-- The unguarded-gate branch of the amended C9 at a concrete input. -/
theorem C9_exception_translation_amended_witness :
    (update_ticket_status "topsecret" 0 0
        (.header "Bearer" (.tok aliceAccess)) downConn 1 ⟨"closed"⟩).1 =
      .exn "connection lost" :=
  C9_exception_translation_amended.2 "topsecret" 0 0 (.tok aliceAccess)
    downConn "connection lost" 1 ⟨"closed"⟩ aliceAccess.payload
    (by decide) (by decide) (by decide)

/-- Claim C10: every article created through the create endpoint is
inserted with `is_published = FALSE` — the insert hard-codes the flag
and `ArticleCreate` carries no published field, so no request body can
set it; every row added by the request is a draft. -/
theorem C10_created_articles_are_drafts (secret : String) (now dbnow : Nat)
    (auth : Authorization) (conn : Conn) (data : ArticleCreate)
    (payload : TokenPayload)
    (hgate : get_current_staff secret now auth conn = .ok payload)
    (hfail : conn.fail = none) :
    (create_article secret now dbnow auth conn data).1 = .ok ⟨"created"⟩
    ∧ (create_article secret now dbnow auth conn data).2.kb_articles =
      conn.store.kb_articles ++
        [⟨conn.store.kb_serial + 1, data.title, data.content, data.category,
          false, dbnow, dbnow⟩]
    ∧ ∀ a ∈ (create_article secret now dbnow auth conn data).2.kb_articles,
        a ∉ conn.store.kb_articles → a.is_published = false := by
  unfold create_article
  rw [hgate, hfail]
  refine ⟨rfl, rfl, ?_⟩
  intro a ha hnot
  simp only [insertArticle, List.mem_append, List.mem_singleton] at ha
  rcases ha with hold | hnew
  · exact absurd hold hnot
  · rw [hnew]

/-- C10 at a concrete input: creating an article on the demo store
appends exactly one draft row. -/
theorem C10_created_articles_are_drafts_witness :
    (create_article "topsecret" 0 7 (.header "Bearer" (.tok aliceAccess))
        demoConn ⟨"Jump drives", "engineering", "How jump drives work"⟩).1 =
      .ok ⟨"created"⟩
    ∧ (create_article "topsecret" 0 7 (.header "Bearer" (.tok aliceAccess))
        demoConn ⟨"Jump drives", "engineering", "How jump drives work"⟩).2.kb_articles =
      demoConn.store.kb_articles ++
        [⟨demoConn.store.kb_serial + 1, "Jump drives", "How jump drives work",
          "engineering", false, 7, 7⟩]
    ∧ ∀ a ∈ (create_article "topsecret" 0 7 (.header "Bearer" (.tok aliceAccess))
        demoConn ⟨"Jump drives", "engineering", "How jump drives work"⟩).2.kb_articles,
        a ∉ demoConn.store.kb_articles → a.is_published = false :=
  C10_created_articles_are_drafts "topsecret" 0 7
    (.header "Bearer" (.tok aliceAccess)) demoConn
    ⟨"Jump drives", "engineering", "How jump drives work"⟩
    aliceAccess.payload (by decide) (by decide)
